import Mathlib

/-!
Verification of the aegra authentication/authorization gateway
(`auth.py`, custom mode) against its specification.

The module is embedded shallowly:

* Header maps are a record of the four entries the code reads
  (`"authorization"` / `"Authorization"`, each as text or as bytes).
  A byte-valued entry is represented by its decoded UTF-8 text, because
  the code decodes it with `bytes.decode("utf-8")` before any other use;
  the empty byte string corresponds to the empty text.
* Python truthiness of the strings involved (`if not authorization`,
  `x or y` chains) is made explicit with `truthy` / `pyOr`.
* The string primitives used by the code (`str.startswith`,
  `str.replace`, `"-" in token`, `str.split("-", 1)[-1]`, `str.lower`)
  are defined structurally over the character list of a `String`, so
  that every concrete run evaluates inside the kernel.
* `jwt.decode(token, secret, algorithms=["HS256"])` is abstracted as a
  verifier function `String → String → VerifyResult`; the claims under
  study quantify over its outcome, never over the HMAC itself.
* Raising `Auth.exceptions.HTTPException` is modelled as returning an
  `AuthResult.error status detail` value; the `try/except` cascade of
  the source is reproduced branch by branch, including the fact that the
  blanket `except Exception` handler also catches an `HTTPException`
  raised inside the `try` body.
-/

namespace Aegra

/-- `dropPre pat s` removes the leading occurrence of `pat` from `s`,
returning `none` when `s` does not begin with `pat`. -/
def dropPre : List Char → List Char → Option (List Char)
  | [], s => some s
  | _ :: _, [] => none
  | p :: ps, c :: cs => if p == c then dropPre ps cs else none

/-- Python `s.startswith(pat)`. -/
def beginsWith (s pat : String) : Bool := (dropPre pat.data s.data).isSome

/-- Left-to-right non-overlapping replacement of `pat` by `rep`, the
scan of Python `str.replace` for a non-empty `pat`.  The `fuel`
argument makes the recursion structural; it is called with
`fuel = s.length`, which suffices because each step consumes at least
one character of `s` when `pat` is non-empty. -/
def replaceAllAux (pat rep : List Char) : Nat → List Char → List Char
  | _, [] => []
  | 0, s => s
  | fuel + 1, c :: cs =>
      match dropPre pat (c :: cs) with
      | some restS => rep ++ replaceAllAux pat rep fuel restS
      | none => c :: replaceAllAux pat rep fuel cs

/-- Python `s.replace(pat, rep)` (every occurrence, non-empty `pat`). -/
def strReplace (s pat rep : String) : String :=
  ⟨replaceAllAux pat.data rep.data s.data.length s.data⟩

/-- Python `c in s` for a single character. -/
def strContains (s : String) (c : Char) : Bool := s.data.contains c

/-- The characters after the first `'-'` (empty when there is none). -/
def afterFirstDash : List Char → List Char
  | [] => []
  | c :: cs => if c == '-' then cs else afterFirstDash cs

/-- Python `s.lower()` (ASCII case, which is all the code compares). -/
def strToLower (s : String) : String := ⟨s.data.map Char.toLower⟩

/-- Python truthiness of an optional string value: `None` and `""` are
falsy, every other string is truthy. -/
def truthy : Option String → Bool
  | none => false
  | some s => !(s == "")

/-- Python `a or b` over optional strings: yields `a` when `a` is
truthy, otherwise yields `b` (which may itself be falsy, as in
Python). -/
def pyOr (a b : Option String) : Option String :=
  if truthy a then a else b

/-- Python `a or b` where the fallback `b` is a plain string. -/
def pyOrD (a : Option String) (b : String) : String :=
  match a with
  | none => b
  | some s => if s = "" then b else s

/-- The four request-header entries read by `authenticate`
(`auth.py` lines 64-69).  `textLower`/`textUpper` are the values stored
under the text keys `"authorization"`/`"Authorization"`;
`bytesLower`/`bytesUpper` are the values stored under the byte keys
`b"authorization"`/`b"Authorization"`, represented by their decoded
UTF-8 text. -/
structure Headers where
  textLower : Option String := none
  textUpper : Option String := none
  bytesLower : Option String := none
  bytesUpper : Option String := none
deriving DecidableEq, Repr

/-- Process configuration read from the environment by the custom-mode
authenticator: `ALLOW_ANONYMOUS` (lower-cased and compared with
`"true"`), `NODE_ENV == "development"`, and the `JWT_SECRET` string. -/
structure Config where
  allowAnonymous : Bool
  nodeEnvDevelopment : Bool
  jwtSecret : String
deriving DecidableEq, Repr

/-- `ALLOW_ANONYMOUS` flag derivation (line 78):
`os.getenv("ALLOW_ANONYMOUS", "false").lower() == "true"`. -/
def allowAnonymousOfEnv (e : Option String) : Bool :=
  strToLower (e.getD "false") == "true"

/-- `JWT_SECRET` derivation (line 54):
`os.getenv("SECRET_KEY", "mock-secret-key-for-migrations")`. -/
def jwtSecretOfEnv (e : Option String) : String :=
  e.getD "mock-secret-key-for-migrations"

/-- The claims of a decoded JWT payload that the code reads.  Only the
fields accessed via `payload.get(...)` are modelled; an absent claim is
`none`. -/
structure Payload where
  user_id : Option String := none
  sub : Option String := none
  id : Option String := none
  email : Option String := none
  name : Option String := none
  username : Option String := none
  provider : Option String := none
  orgId : Option String := none
  companyId : Option String := none
  familyId : Option String := none
deriving DecidableEq, Repr

/-- Outcome of `jwt.decode(token, secret, algorithms=["HS256"])`:
a decoded payload, `jwt.ExpiredSignatureError`, any other
`jwt.InvalidTokenError`, or any other exception. -/
inductive VerifyResult where
  | ok (payload : Payload)
  | expired
  | invalid
  | otherError
deriving DecidableEq, Repr

/-- The identity dictionary returned on success
(`Auth.types.MinimalUserDict`).  Fields the dev/anonymous branches do
not set keep their defaults. -/
structure Identity where
  identity : String
  display_name : String
  email : Option String := none
  is_authenticated : Bool
  permissions : List String := []
  metadata : Option (List (String × Option String)) := none
deriving DecidableEq, Repr

/-- Result of authentication: an identity, or a raised
`Auth.exceptions.HTTPException(status_code, detail)`. -/
inductive AuthResult where
  | ok (id : Identity)
  | error (status : Nat) (detail : String)
deriving DecidableEq, Repr

/-- Synthetic subject of the development-bypass branch (line 100):
`token.split("-", 1)[-1] if "-" in token else "anonymous"`. -/
def devUserId (token : String) : String :=
  if strContains token '-' then ⟨afterFirstDash token.data⟩ else "anonymous"

/-- The `try/except` block of `authenticate` (lines 122-195), given the
outcome of `jwt.decode`.  Note: the `HTTPException(401, "Invalid token:
missing user identity")` raised at line 150 is raised inside the `try`
body, so it is caught by the blanket `except Exception` handler at line
190 (it is not a `jwt.InvalidTokenError`) and surfaces as the 500
"Authentication system error"; the exceptions raised inside the
`except` clauses themselves propagate unchanged. -/
def verifyStage (cfg : Config) (verify : String → String → VerifyResult)
    (token : String) : AuthResult :=
  match verify token cfg.jwtSecret with
  | .expired => .error 401 "Token expired"
  | .invalid =>
      if cfg.nodeEnvDevelopment then
        .ok { identity := "dev-user-invalid-token",
              display_name := "Dev User (Invalid Token)",
              is_authenticated := true }
      else .error 401 "Invalid authentication token"
  | .otherError => .error 500 "Authentication system error"
  | .ok payload =>
      let uidOpt := pyOr payload.user_id (pyOr payload.sub payload.id)
      if truthy uidOpt then
        let uid := uidOpt.getD ""
        .ok { identity := uid,
              display_name :=
                pyOrD (pyOr payload.name payload.username)
                  (pyOrD payload.email uid),
              email := payload.email,
              is_authenticated := true,
              permissions := ["read", "write"],
              metadata := some [("provider", payload.provider),
                                ("org_id", payload.orgId),
                                ("company_id", payload.companyId),
                                ("family_id", payload.familyId)] }
      else
        -- line 150 raises HTTPException(401, "Invalid token: missing
        -- user identity"); `except Exception` (line 190) turns it into
        -- the 500 below.
        .error 500 "Authentication system error"

/-- The `if not JWT_SECRET` configuration check (lines 108-120)
followed by signature verification. -/
def checkSecretStage (cfg : Config) (verify : String → String → VerifyResult)
    (token : String) : AuthResult :=
  if cfg.jwtSecret = "" then
    if cfg.nodeEnvDevelopment then
      .ok { identity := "dev-user", display_name := "Development User",
            is_authenticated := true }
    else .error 500 "Authentication not properly configured"
  else verifyStage cfg verify token

/-- Processing of the extracted token (lines 98 onward): the
development-bypass check, then the secret check, then verification. -/
def processToken (cfg : Config) (verify : String → String → VerifyResult)
    (token : String) : AuthResult :=
  if beginsWith token "anonymous" || beginsWith token "noop-" then
    .ok { identity := devUserId token,
          display_name := "Dev User (" ++ devUserId token ++ ")",
          is_authenticated := true }
  else checkSecretStage cfg verify token

/-- The custom-mode `authenticate` (lines 56-195): header lookup chain,
missing-header handling, `"Bearer "` scheme check, token extraction via
`str.replace` (which removes every occurrence of `"Bearer "`, not only
the leading one), then token processing. -/
def authenticate (cfg : Config) (verify : String → String → VerifyResult)
    (headers : Headers) : AuthResult :=
  let auth :=
    pyOr headers.textLower
      (pyOr headers.textUpper (pyOr headers.bytesLower headers.bytesUpper))
  if truthy auth then
    let a := auth.getD ""
    if beginsWith a "Bearer " then
      processToken cfg verify (strReplace a "Bearer " "")
    else .error 401 "Invalid authorization format. Expected 'Bearer <token>'"
  else
    if cfg.allowAnonymous then
      .ok { identity := "anonymous", display_name := "Anonymous User",
            is_authenticated := false }
    else .error 401 "Authorization header required"

/-- The operation payload passed to `authorize`: its `"metadata"` entry
(absent or a string-keyed map, modelled as an association list) and the
remaining entries of the dictionary, which `authorize` never touches. -/
structure Operation where
  metadata : Option (List (String × String)) := none
  rest : List (String × String) := []
deriving DecidableEq, Repr

/-- First-match lookup in an association list (Python `dict` access). -/
def dictLookup (m : List (String × String)) (k : String) : Option String :=
  match m with
  | [] => none
  | (k', v) :: rest => if k' = k then some v else dictLookup rest k

/-- Python `dict.update({k: v})`: replace the entry at `k` in place,
keeping its position, or append a fresh entry. -/
def dictUpdate (m : List (String × String)) (k v : String) :
    List (String × String) :=
  match m with
  | [] => [(k, v)]
  | (k', v') :: rest =>
      if k' = k then (k, v) :: rest else (k', v') :: dictUpdate rest k v

/-- Result of authorization: the returned filter together with the
payload after the in-place metadata stamp, or a raised
HTTPException. -/
inductive AuthorizeResult where
  | ok (filter : List (String × String)) (value : Operation)
  | error (status : Nat) (detail : String)
deriving DecidableEq, Repr

/-- The custom-mode `authorize` (lines 197-230): reject an empty
(falsy) subject with 401, build `{"owner": user_id}`, stamp it into
`value.setdefault("metadata", {})` via `dict.update`, and return the
filter.  No other exception can arise in the body, so the
`except Exception` arm (500) is unreachable, and the HTTPException is
re-raised unchanged by the dedicated `except` clause. -/
def authorize (subject : String) (value : Operation) : AuthorizeResult :=
  if subject = "" then .error 401 "Invalid user identity"
  else
    let metadata := value.metadata.getD []
    .ok [("owner", subject)]
      { value with metadata := some (dictUpdate metadata "owner" subject) }

/-! ## Helper lemmas about the metadata map -/

/-- Updating a key makes it readable back. -/
theorem dictLookup_dictUpdate_self (m : List (String × String)) (k v : String) :
    dictLookup (dictUpdate m k v) k = some v := by
  induction m with
  | nil => simp [dictUpdate, dictLookup]
  | cons p rest ih =>
      obtain ⟨a, b⟩ := p
      by_cases h : a = k
      · subst h; simp [dictUpdate, dictLookup]
      · simp [dictUpdate, dictLookup, h, ih]

/-- Updating a key leaves every other key unchanged. -/
theorem dictLookup_dictUpdate_ne (m : List (String × String)) (k v k' : String)
    (h : k' ≠ k) : dictLookup (dictUpdate m k v) k' = dictLookup m k' := by
  induction m with
  | nil => simp [dictUpdate, dictLookup, Ne.symm h]
  | cons p rest ih =>
      obtain ⟨a, b⟩ := p
      by_cases ha : a = k
      · subst ha; simp [dictUpdate, dictLookup, Ne.symm h]
      · by_cases hak : a = k' <;> simp [dictUpdate, dictLookup, ha, hak, h, ih]

/-- Updating a key twice with the same value is the same as once. -/
theorem dictUpdate_idem (m : List (String × String)) (k v : String) :
    dictUpdate (dictUpdate m k v) k v = dictUpdate m k v := by
  induction m with
  | nil => simp [dictUpdate]
  | cons p rest ih =>
      obtain ⟨a, b⟩ := p
      by_cases h : a = k
      · subst h; simp [dictUpdate]
      · simp [dictUpdate, h, ih]

/-! ## The claims -/

/-- C1: for every authentication context whose identity subject is
non-empty and every operation payload, the owner-scoped authorizer
returns a filter of exactly the form `{owner: subject}` — so no input
yields a filter whose owner differs from the caller's subject — and
when the subject is empty it fails with a 401 error instead of
returning a filter. -/
theorem authorize_owner_exact (s : String) (v : Operation) :
    (s ≠ "" →
      authorize s v =
        .ok [("owner", s)]
          { v with metadata := some (dictUpdate (v.metadata.getD []) "owner" s) }) ∧
    (s = "" → authorize s v = .error 401 "Invalid user identity") := by
  constructor
  · intro h; simp [authorize, h]
  · intro h; subst h; simp [authorize]

/-- Witness for C1 at subject "u1" (and at the empty subject). -/
theorem authorize_owner_exact_witness :
    authorize "u1" { metadata := some [("color", "red")], rest := [("kind", "thread")] } =
      .ok [("owner", "u1")]
        { metadata := some [("color", "red"), ("owner", "u1")],
          rest := [("kind", "thread")] } ∧
    authorize "" {} = .error 401 "Invalid user identity" := by
  constructor
  · exact ((authorize_owner_exact "u1"
      { metadata := some [("color", "red")], rest := [("kind", "thread")] }).1
        (by decide)).trans (by decide)
  · exact (authorize_owner_exact "" {}).2 rfl

/-- C2 counterexample: the development-bypass branch is NOT taken
exactly when the token equals "anonymous" or begins with "noop-".
The token "anonymous2" is neither, yet the code takes the bypass (the
check is `token.startswith("anonymous")`) and returns an authenticated
dev identity even though verification would have rejected the token. -/
theorem dev_bypass_cex :
    ¬ ("anonymous2" = "anonymous") ∧
    beginsWith "anonymous2" "noop-" = false ∧
    processToken ⟨false, false, "secret"⟩ (fun _ _ => .invalid) "anonymous2" =
      .ok { identity := "anonymous", display_name := "Dev User (anonymous)",
            is_authenticated := true } := by
  exact ⟨by decide, rfl, rfl⟩

/-- C2 amended: the development-bypass branch is taken exactly when the
token BEGINS WITH "anonymous" or begins with "noop-"; when taken it
returns an authenticated identity, without any signature check, whose
subject is the suffix of the token after the first "-" (defaulting to
"anonymous" when the token contains no "-"); in particular
"Bearer noop-team42" yields subject "team42". -/
theorem dev_bypass_amended (cfg : Config)
    (verify : String → String → VerifyResult) (t : String) :
    processToken cfg verify t =
      (if beginsWith t "anonymous" || beginsWith t "noop-" then
        .ok { identity := devUserId t,
              display_name := "Dev User (" ++ devUserId t ++ ")",
              is_authenticated := true }
      else checkSecretStage cfg verify t) ∧
    devUserId "noop-team42" = "team42" ∧
    (strContains t '-' = false → devUserId t = "anonymous") ∧
    authenticate cfg verify { textLower := some "Bearer noop-team42" } =
      .ok { identity := "team42", display_name := "Dev User (team42)",
            is_authenticated := true } := by
  refine ⟨rfl, by decide, ?_, rfl⟩
  intro h; simp [devUserId, h]

/-- Witness for C2 amended at the dash-free token "anonymous". -/
theorem dev_bypass_amended_witness :
    processToken ⟨false, false, "secret"⟩ (fun _ _ => .invalid) "anonymous" =
      .ok { identity := "anonymous", display_name := "Dev User (anonymous)",
            is_authenticated := true } ∧
    devUserId "anonymous" = "anonymous" := by
  have h := dev_bypass_amended ⟨false, false, "secret"⟩ (fun _ _ => .invalid) "anonymous"
  exact ⟨h.1.trans (by decide), h.2.2.1 rfl⟩

/-- C3: for every token that reaches signature verification (not a
bypass token, secret configured), an expired-signature failure yields
401 "Token expired" in every mode, while any other token-validation
failure yields an authenticated dev identity in development mode and
401 "Invalid authentication token" otherwise. -/
theorem verify_failure_handling (cfg : Config)
    (verify : String → String → VerifyResult) (t : String)
    (hB : beginsWith t "anonymous" = false)
    (hN : beginsWith t "noop-" = false)
    (hS : cfg.jwtSecret ≠ "") :
    (verify t cfg.jwtSecret = .expired →
      processToken cfg verify t = .error 401 "Token expired") ∧
    (verify t cfg.jwtSecret = .invalid →
      processToken cfg verify t =
        if cfg.nodeEnvDevelopment then
          .ok { identity := "dev-user-invalid-token",
                display_name := "Dev User (Invalid Token)",
                is_authenticated := true }
        else .error 401 "Invalid authentication token") := by
  constructor <;> intro hv <;>
    simp [processToken, checkSecretStage, verifyStage, hB, hN, hS, hv]

/-- Witness for C3: an expired token in development mode still gets
401, an otherwise-invalid token degrades in development mode and is
rejected outside it. -/
theorem verify_failure_handling_witness :
    processToken ⟨false, true, "secret"⟩ (fun _ _ => .expired) "sometoken" =
      .error 401 "Token expired" ∧
    processToken ⟨false, true, "secret"⟩ (fun _ _ => .invalid) "sometoken" =
      .ok { identity := "dev-user-invalid-token",
            display_name := "Dev User (Invalid Token)",
            is_authenticated := true } ∧
    processToken ⟨false, false, "secret"⟩ (fun _ _ => .invalid) "sometoken" =
      .error 401 "Invalid authentication token" := by
  refine ⟨(verify_failure_handling ⟨false, true, "secret"⟩
      (fun _ _ => .expired) "sometoken" rfl rfl (by decide)).1 rfl, ?_, ?_⟩
  · exact ((verify_failure_handling ⟨false, true, "secret"⟩
      (fun _ _ => .invalid) "sometoken" rfl rfl (by decide)).2 rfl).trans (by decide)
  · exact ((verify_failure_handling ⟨false, false, "secret"⟩
      (fun _ _ => .invalid) "sometoken" rfl rfl (by decide)).2 rfl).trans (by decide)

/-- C4: for a header map containing none of the four authorization key
variants, authentication fails with 401 "Authorization header required"
when ALLOW_ANONYMOUS is false, and succeeds with subject "anonymous"
and `is_authenticated = false` when it is true; the flag defaults to
false when the environment variable is absent. -/
theorem missing_header_handling (cfg : Config)
    (verify : String → String → VerifyResult) :
    authenticate cfg verify {} =
      (if cfg.allowAnonymous then
        .ok { identity := "anonymous", display_name := "Anonymous User",
              is_authenticated := false }
      else .error 401 "Authorization header required") ∧
    allowAnonymousOfEnv none = false := by
  exact ⟨rfl, by decide⟩

/-- C5 counterexample: the processed token is NOT always the header
value with only the leading "Bearer " prefix removed.  For the value
"Bearer Bearer noop-a" the code removes EVERY occurrence of "Bearer "
(`str.replace`), obtaining "noop-a" instead of "Bearer noop-a", so an
interior "Bearer " flips the outcome from a 401 rejection to a
dev-bypass identity. -/
theorem token_extraction_cex :
    beginsWith ("Bearer " ++ "Bearer noop-a") "Bearer " = true ∧
    strReplace ("Bearer " ++ "Bearer noop-a") "Bearer " "" = "noop-a" ∧
    ("noop-a" : String) ≠ "Bearer noop-a" ∧
    authenticate ⟨false, false, "secret"⟩ (fun _ _ => .invalid)
      { textLower := some ("Bearer " ++ "Bearer noop-a") } =
      .ok { identity := "a", display_name := "Dev User (a)",
            is_authenticated := true } ∧
    processToken ⟨false, false, "secret"⟩ (fun _ _ => .invalid) "Bearer noop-a" =
      .error 401 "Invalid authentication token" := by
  exact ⟨rfl, by decide, by decide, rfl, rfl⟩

/-- C5 amended: a present header value not starting with "Bearer "
fails with the 401 invalid-format error; one that does start with it
has EVERY occurrence of the substring "Bearer " removed (Python
`str.replace`), and that string is the token subsequently processed
(for values with no interior "Bearer " this coincides with stripping
the leading prefix). -/
theorem token_extraction_amended (cfg : Config)
    (verify : String → String → VerifyResult) (a : String) (h : a ≠ "") :
    (beginsWith a "Bearer " = false →
      authenticate cfg verify { textLower := some a } =
        .error 401 "Invalid authorization format. Expected 'Bearer <token>'") ∧
    (beginsWith a "Bearer " = true →
      authenticate cfg verify { textLower := some a } =
        processToken cfg verify (strReplace a "Bearer " "")) := by
  constructor <;> intro hb <;> simp [authenticate, pyOr, truthy, h, hb]

/-- Witness for C5 amended at a malformed and a well-formed value. -/
theorem token_extraction_amended_witness :
    authenticate ⟨false, false, "secret"⟩ (fun _ _ => .invalid)
      { textLower := some "Basic abc" } =
      .error 401 "Invalid authorization format. Expected 'Bearer <token>'" ∧
    authenticate ⟨false, false, "secret"⟩ (fun _ _ => .invalid)
      { textLower := some "Bearer noop-x" } =
      processToken ⟨false, false, "secret"⟩ (fun _ _ => .invalid) "noop-x" := by
  refine ⟨(token_extraction_amended ⟨false, false, "secret"⟩
      (fun _ _ => .invalid) "Basic abc" (by decide)).1 rfl, ?_⟩
  exact ((token_extraction_amended ⟨false, false, "secret"⟩
      (fun _ _ => .invalid) "Bearer noop-x" (by decide)).2 rfl).trans (by decide)

/-- C6 (code bug): a validly-signed token with no identity claim should
fail with the 401 missing-identity error, and the code raises exactly
that HTTPException — but it raises it inside the `try` block, whose
blanket `except Exception` handler catches it and re-raises 500
"Authentication system error" instead.  For contrast, a validly-signed
token with claim `sub = "u1"` yields subject "u1" with permissions
read/write as claimed. -/
theorem missing_identity_shadowed_500 :
    verifyStage ⟨false, false, "secret"⟩ (fun _ _ => .ok {}) "sometoken" =
      .error 500 "Authentication system error" ∧
    processToken ⟨false, false, "secret"⟩ (fun _ _ => .ok {}) "sometoken" =
      .error 500 "Authentication system error" ∧
    processToken ⟨false, false, "secret"⟩
        (fun _ _ => .ok { sub := some "u1" }) "sometoken" =
      .ok { identity := "u1", display_name := "u1", email := none,
            is_authenticated := true, permissions := ["read", "write"],
            metadata := some [("provider", none), ("org_id", none),
                              ("company_id", none), ("family_id", none)] } := by
  exact ⟨rfl, rfl, rfl⟩

/-- C7: for every fixed header value, the four header maps carrying it
under "authorization" or "Authorization", as text or as its UTF-8 byte
sequence (represented here by its decoded text), produce an identical
authentication result. -/
theorem header_variant_equivalence (cfg : Config)
    (verify : String → String → VerifyResult) (v : String) :
    authenticate cfg verify { textLower := some v } =
      authenticate cfg verify { textUpper := some v } ∧
    authenticate cfg verify { textUpper := some v } =
      authenticate cfg verify { bytesLower := some v } ∧
    authenticate cfg verify { bytesLower := some v } =
      authenticate cfg verify { bytesUpper := some v } := by
  by_cases h : v = ""
  · subst h; exact ⟨rfl, rfl, rfl⟩
  · refine ⟨?_, ?_, ?_⟩ <;> simp [authenticate, pyOr, truthy, h]

/-- C8 counterexample: when SECRET_KEY is not provided, the secret does
NOT count as absent — it defaults to the non-empty placeholder
"mock-secret-key-for-migrations", so the 500
"Authentication not properly configured" branch is not taken and
verification proceeds against the placeholder (here rejecting the
token with 401 instead). -/
theorem default_secret_cex :
    jwtSecretOfEnv none = "mock-secret-key-for-migrations" ∧
    jwtSecretOfEnv none ≠ "" ∧
    processToken ⟨false, false, jwtSecretOfEnv none⟩
        (fun _ _ => .invalid) "sometoken" =
      .error 401 "Invalid authentication token" ∧
    processToken ⟨false, false, jwtSecretOfEnv none⟩
        (fun _ _ => .invalid) "sometoken" ≠
      .error 500 "Authentication not properly configured" := by
  exact ⟨rfl, by decide, rfl, by decide⟩

/-- C8 amended: for every request presenting a non-bypass bearer token
while the signing secret is EMPTY (which requires SECRET_KEY to be set
to the empty string, since an absent SECRET_KEY defaults to the
non-empty placeholder): development mode yields the fixed dev identity
"dev-user", any other mode fails with 500
"Authentication not properly configured". -/
theorem empty_secret_behavior (cfg : Config)
    (verify : String → String → VerifyResult) (t : String)
    (hB : beginsWith t "anonymous" = false)
    (hN : beginsWith t "noop-" = false)
    (hS : cfg.jwtSecret = "") :
    processToken cfg verify t =
      if cfg.nodeEnvDevelopment then
        .ok { identity := "dev-user", display_name := "Development User",
              is_authenticated := true }
      else .error 500 "Authentication not properly configured" := by
  simp [processToken, checkSecretStage, hB, hN, hS]

/-- Witness for C8 amended in development and non-development mode. -/
theorem empty_secret_behavior_witness :
    processToken ⟨false, true, ""⟩ (fun _ _ => .invalid) "sometoken" =
      .ok { identity := "dev-user", display_name := "Development User",
            is_authenticated := true } ∧
    processToken ⟨false, false, ""⟩ (fun _ _ => .invalid) "sometoken" =
      .error 500 "Authentication not properly configured" := by
  constructor
  · exact (empty_secret_behavior ⟨false, true, ""⟩
      (fun _ _ => .invalid) "sometoken" rfl rfl rfl).trans (by decide)
  · exact (empty_secret_behavior ⟨false, false, ""⟩
      (fun _ _ => .invalid) "sometoken" rfl rfl rfl).trans (by decide)

/-- C9: for every identity with non-empty subject, `authorize` stamps
`metadata.owner` with the filter's owner (the subject), leaves every
other metadata key and the non-metadata part of the payload unchanged,
and is idempotent: a second application with the same identity returns
the identical filter and leaves the payload unchanged. -/
theorem authorize_stamp_frame_idem (s : String) (v : Operation) (h : s ≠ "") :
    authorize s v =
      .ok [("owner", s)]
        { v with metadata := some (dictUpdate (v.metadata.getD []) "owner" s) } ∧
    dictLookup (dictUpdate (v.metadata.getD []) "owner" s) "owner" = some s ∧
    (∀ k, k ≠ "owner" →
      dictLookup (dictUpdate (v.metadata.getD []) "owner" s) k =
        dictLookup (v.metadata.getD []) k) ∧
    ({ v with metadata := some (dictUpdate (v.metadata.getD []) "owner" s) } : Operation).rest
      = v.rest ∧
    authorize s { v with metadata := some (dictUpdate (v.metadata.getD []) "owner" s) } =
      .ok [("owner", s)]
        { v with metadata := some (dictUpdate (v.metadata.getD []) "owner" s) } := by
  refine ⟨by simp [authorize, h], dictLookup_dictUpdate_self _ _ _,
    fun k hk => dictLookup_dictUpdate_ne _ _ _ _ hk, rfl, ?_⟩
  simp [authorize, h, dictUpdate_idem]

/-- Witness for C9 at subject "u1" over a payload that already carries
an unrelated metadata key and a stale owner. -/
theorem authorize_stamp_frame_idem_witness :
    authorize "u1" { metadata := some [("color", "red"), ("owner", "old")],
                     rest := [("kind", "thread")] } =
      .ok [("owner", "u1")]
        { metadata := some [("color", "red"), ("owner", "u1")],
          rest := [("kind", "thread")] } ∧
    dictLookup [("color", "red"), ("owner", "u1")] "owner" = some "u1" ∧
    dictLookup [("color", "red"), ("owner", "u1")] "color" = some "red" ∧
    authorize "u1" { metadata := some [("color", "red"), ("owner", "u1")],
                     rest := [("kind", "thread")] } =
      .ok [("owner", "u1")]
        { metadata := some [("color", "red"), ("owner", "u1")],
          rest := [("kind", "thread")] } := by
  have h := authorize_stamp_frame_idem "u1"
    { metadata := some [("color", "red"), ("owner", "old")],
      rest := [("kind", "thread")] } (by decide)
  exact ⟨h.1.trans (by decide), h.2.1,
    (h.2.2.1 "color" (by decide)).trans (by decide), h.2.2.2.2⟩

/-- C10: a header map whose authorization entry is present but empty
(empty text or empty byte string) behaves exactly like a map with no
authorization entry at all — it takes the missing-header branch and
never reaches the invalid-format check. -/
theorem empty_header_as_missing (cfg : Config)
    (verify : String → String → VerifyResult) :
    authenticate cfg verify { textLower := some "" } =
      authenticate cfg verify {} ∧
    authenticate cfg verify { textUpper := some "" } =
      authenticate cfg verify {} ∧
    authenticate cfg verify { bytesLower := some "" } =
      authenticate cfg verify {} ∧
    authenticate cfg verify { bytesUpper := some "" } =
      authenticate cfg verify {} ∧
    authenticate cfg verify {} =
      (if cfg.allowAnonymous then
        .ok { identity := "anonymous", display_name := "Anonymous User",
              is_authenticated := false }
      else .error 401 "Authorization header required") := by
  exact ⟨rfl, rfl, rfl, rfl, rfl⟩

end Aegra
